import Mathlib

/-!
Verification of the pyCGM computation engine (`src/pycgm/pyCGM.py`).

The engine is shallowly embedded: Python floats become `ℚ`, numpy buffers
become `List ℚ`, the tagged parameter wrapper classes (`Marker`,
`Measurement`, `Axis`, `Angle`) become the inductive `Param`, and Python
values flowing into the geometry functions become the inductive `Value`.
Geometry functions themselves (module `pycgm_calc`, out of scope per the
spec) are abstract `List Value → Value` functions carried in the state.
Crashes (IndexError, TypeError, ValueError, sys.exit) are modelled by
`Option`/`Except` failure.
-/

namespace PyCGM

/-! ### Python dict and slice helpers -/

/-- Python `d[k] = v`: replace the value of an existing key in place,
otherwise append the new key at the end (insertion order preserved). -/
def dictInsert {α : Type} (d : List (String × α)) (k : String) (v : α) :
    List (String × α) :=
  if (d.lookup k).isSome then
    d.map (fun kv => if kv.1 = k then (k, v) else kv)
  else
    d ++ [(k, v)]

/-- Python `{name: index for index, name in enumerate(names)}`:
later duplicate names overwrite earlier ones. -/
def buildMapping (names : List String) : List (String × Nat) :=
  names.enum.foldl (fun d p => dictInsert d p.2 p.1) []

/-- Python `buf[a:b:1]` on a 1-D numpy array (clamping semantics). -/
def sliceList (l : List ℚ) (a b : Nat) : List ℚ :=
  (l.drop a).take (b - a)

/-! ### Parameters and values -/

/-- A bound pipeline parameter: the tagged wrapper classes `pyCGM.Marker`
(holding a slice or `None`), `pyCGM.Measurement` (holding the bind-time
value or `None`), `pyCGM.Axis` / `pyCGM.Angle` (holding a result index or
`None`), or a bare literal number such as the `7.0` marker-size entry. -/
inductive Param : Type
  | marker (s : Option (Nat × Nat))
  | measurement (v : Option ℚ)
  | axis (i : Option Nat)
  | angle (i : Option Nat)
  | lit (q : ℚ)
  deriving DecidableEq, Repr

/-- A Python value as seen by the geometry functions: a float, a (possibly
nested) numpy array, `None`, or an arbitrary passed-through object (the
`else` branch of `calc` appends the parameter object itself). -/
inductive Value : Type
  | float (q : ℚ)
  | arr (vs : List Value)
  | pynone
  | obj (p : Param)
  deriving Repr

/-- Numpy `np.asarray(v).ndim` for well-formed nested-list values. -/
def Value.ndim : Value → Nat
  | .float _ => 0
  | .pynone => 0
  | .obj _ => 0
  | .arr [] => 1
  | .arr (v :: _) => v.ndim + 1

/-- Iterating over the first axis of an array (`for axis in ret_axes`). -/
def Value.children : Value → List Value
  | .arr vs => vs
  | _ => []

/-- A pipeline function together with its `__name__`. -/
structure NamedFunc : Type where
  name : String
  fn : List Value → Value

/-! ### The model state (the attributes of a `pyCGM` instance) -/

structure State : Type where
  marker_mapping : List (String × (Nat × Nat))
  measurements : List (String × ℚ)
  marker_data : List (List ℚ)
  num_frames : Nat
  axis_keys : List String
  angle_keys : List String
  axis_mapping : List (String × Nat)
  angle_mapping : List (String × Nat)
  axis_funcs : List NamedFunc
  angle_funcs : List NamedFunc
  axis_func_mapping : List (String × Nat)
  angle_func_mapping : List (String × Nat)
  axis_result_mapping : List (String × List String)
  angle_result_mapping : List (String × List String)
  axis_func_parameters : List (List Param)
  angle_func_parameters : List (List Param)
  num_axes : Nat
  num_angles : Nat
  num_axis_floats_per_frame : Nat
  num_angle_floats_per_frame : Nat
  axis_results_shape : Nat × Nat × Nat × Nat
  angle_results_shape : Nat × Nat × Nat

/-- Method `pyCGM.marker_slice`: the slice of a marker name, `None` if absent. -/
def State.marker_slice (s : State) (marker_name : String) : Option (Nat × Nat) :=
  s.marker_mapping.lookup marker_name

/-- Method `pyCGM.measurement_value`: the value of a measurement name, `None` if absent. -/
def State.measurement_value (s : State) (measurement_name : String) : Option ℚ :=
  s.measurements.lookup measurement_name

/-- Method `pyCGM.axis_index`: the axis-results index of an axis name, `None` if absent. -/
def State.axis_index (s : State) (axis_name : String) : Option Nat :=
  s.axis_mapping.lookup axis_name

/-- Method `pyCGM.angle_index`: the angle-results index of an angle name, `None` if absent. -/
def State.angle_index (s : State) (angle_name : String) : Option Nat :=
  s.angle_mapping.lookup angle_name

/-! ### Building bound parameter lists (shared body of `modify_function`
and `add_function`, lines 378-388 and 442-452): four sequential loops
appending Marker, then Measurement, then Axis, then Angle parameters. -/

def buildParams (s : State) (markers measurements axes angles : List String) :
    List Param :=
  let ps := markers.foldl
    (fun acc n => acc ++ [Param.marker (s.marker_slice n)]) []
  let ps := measurements.foldl
    (fun acc n => acc ++ [Param.measurement (s.measurement_value n)]) ps
  let ps := axes.foldl
    (fun acc n => acc ++ [Param.axis (s.axis_index n)]) ps
  angles.foldl
    (fun acc n => acc ++ [Param.angle (s.angle_index n)]) ps

/-! ### The frame evaluator `pyCGM.calc` (lines 654-702)

Both passes dispatch on the wrapper class of each bound parameter:
`Marker` slices the frame buffer, `Measurement` substitutes its stored
value, `Axis` indexes `axis_results`, and everything else — including an
`Angle` wrapper, for which `calc` has no branch — is appended to the
argument list unchanged.  Failure (`none`) models a Python exception:
indexing `axis_results` with `None` (TypeError) or out of range
(IndexError), or a missing entry of `axis_func_parameters`. -/

/-- Resolve one bound parameter for the current frame.  `env` is the
`axis_results` list consulted by the `Axis` branch (the in-progress list
during the axis pass, the completed list during the angle pass).  A
`Marker` holding `None` yields `frame[None]`, which in numpy is the whole
frame buffer under a new leading axis. -/
def resolveParam (frame : List ℚ) (env : List Value) : Param → Option Value
  | .marker (some (a, b)) => some (.arr ((sliceList frame a b).map .float))
  | .marker none => some (.arr [.arr (frame.map .float)])
  | .measurement (some q) => some (.float q)
  | .measurement none => some .pynone
  | .axis (some i) => env.get? i
  | .axis none => none
  | .angle i => some (.obj (.angle i))
  | .lit q => some (.float q)

/-- Resolve a whole bound parameter list, in order, stopping at the first
failing parameter (the loop body raises there). -/
def resolveParams (frame : List ℚ) (env : List Value) :
    List Param → Option (List Value)
  | [] => some []
  | p :: ps =>
    match resolveParam frame env p, resolveParams frame env ps with
    | some v, some vs => some (v :: vs)
    | _, _ => none

/-- The values appended to `axis_results` from one function return:
a stack (`ndim == 3`) is appended element by element, anything else as a
single entry. -/
def retListAxes (v : Value) : List Value :=
  if v.ndim = 3 then v.children else [v]

/-- The values appended to `angle_results` from one function return:
a stack (`ndim == 2`) is appended element by element, anything else as a
single entry. -/
def retListAngles (v : Value) : List Value :=
  if v.ndim = 2 then v.children else [v]

/-- The axis pass: run the axis functions in declaration order, resolving
each parameter list against the axis results accumulated so far (`acc`). -/
def calcAxesGo (frame : List ℚ) :
    List NamedFunc → List (List Param) → List Value → Option (List Value)
  | [], _, acc => some acc
  | _ :: _, [], _ => none
  | f :: fs, ps :: pss, acc =>
    match resolveParams frame acc ps with
    | none => none
    | some args => calcAxesGo frame fs pss (acc ++ retListAxes (f.fn args))

/-- The angle pass: run the angle functions in declaration order.  The
parameter environment is the completed `axis_results` of the same frame;
the accumulated `angle_results` are never consulted by resolution. -/
def calcAnglesGo (frame : List ℚ) (axis_results : List Value) :
    List NamedFunc → List (List Param) → List Value → Option (List Value)
  | [], _, acc => some acc
  | _ :: _, [], _ => none
  | f :: fs, ps :: pss, acc =>
    match resolveParams frame axis_results ps with
    | none => none
    | some args => calcAnglesGo frame axis_results fs pss
        (acc ++ retListAngles (f.fn args))

/-- The axis half of `pyCGM.calc`. -/
def calcAxes (s : State) (frame : List ℚ) : Option (List Value) :=
  calcAxesGo frame s.axis_funcs s.axis_func_parameters []

/-- Method `pyCGM.calc`: the full frame evaluator, returning the per-frame axis
and angle result lists (`calc` is a Lean keyword, hence `calcFrame`). -/
def calcFrame (s : State) (frame : List ℚ) : Option (List Value × List Value) :=
  match calcAxes s frame with
  | none => none
  | some axis_results =>
    match calcAnglesGo frame axis_results s.angle_funcs
        s.angle_func_parameters [] with
    | none => none
    | some angle_results => some (axis_results, angle_results)

/-! ### Registry operations `pyCGM.modify_function` (lines 370-423) and
`pyCGM.add_function` (lines 425-486)

`sys.exit` is modelled as an `Except.error` carrying a `ConfigError` tag
and the instance state at the moment of exit.  `getattr(self, name)` —
which resolves an override method defined on a subclass — is modelled by
passing the resolved function explicitly. -/

inductive ConfigError : Type
  | bothAxesAndAngles
  | neitherAxesNorAngles
  | functionNotFound
  deriving DecidableEq, Repr

/-- Total number of result names in a result mapping:
`len(list(chain(*mapping.values())))`. -/
def chainCount (m : List (String × List String)) : Nat :=
  (m.map (fun kv => kv.2.length)).sum

/-- The ordered result-name list of a result mapping:
`list(chain(*mapping.values()))`. -/
def chainKeys (m : List (String × List String)) : List String :=
  (m.map (fun kv => kv.2)).flatten

/-- Method `pyCGM.modify_function`: override an existing pipeline entry's
function, bound parameters and (optionally) returned result names.
`newFn` is the method `getattr(self, function)` resolves to. -/
def modify_function (s : State) (function : String)
    (newFn : List Value → Value)
    (markers measurements axes angles : List String)
    (returns_axes returns_angles : Option (List String)) :
    Except (ConfigError × State) State :=
  if returns_axes.isSome ∧ returns_angles.isSome then
    .error (.bothAxesAndAngles, s)
  else
    let params := buildParams s markers measurements axes angles
    match s.axis_func_mapping.lookup function,
        s.angle_func_mapping.lookup function with
    | some i, _ =>
      let s1 := { s with
        axis_funcs := s.axis_funcs.set i ⟨function, newFn⟩,
        axis_func_parameters := s.axis_func_parameters.set i params }
      .ok (modifyReturns s1 function returns_axes returns_angles)
    | none, some i =>
      let s1 := { s with
        angle_funcs := s.angle_funcs.set i ⟨function, newFn⟩,
        angle_func_parameters := s.angle_func_parameters.set i params }
      .ok (modifyReturns s1 function returns_axes returns_angles)
    | none, none => .error (.functionNotFound, s)
where
  /-- The two trailing `if returns_... is not None` update blocks shared
  by both dispatch branches (lines 405-423). -/
  modifyReturns (s1 : State) (function : String)
      (returns_axes returns_angles : Option (List String)) : State :=
    let s2 := match returns_axes with
      | none => s1
      | some ra =>
        let m := dictInsert s1.axis_result_mapping function ra
        let na := chainCount m
        { s1 with
          axis_result_mapping := m,
          num_axes := na,
          axis_mapping := buildMapping s1.axis_keys,
          num_axis_floats_per_frame := na * 16,
          axis_results_shape := (s1.num_frames, na, 4, 4) }
    match returns_angles with
    | none => s2
    | some rg =>
      let m := dictInsert s2.angle_result_mapping function rg
      let ng := chainCount m
      { s2 with
        angle_result_mapping := m,
        num_angles := ng,
        angle_mapping := buildMapping s2.angle_keys,
        num_angle_floats_per_frame := ng * 3,
        angle_results_shape := (s2.num_frames, ng, 3) }

/-- Method `pyCGM.add_function`: append a new pipeline entry.  The function is
given resolved (name plus callable); the result-mapping key is its name,
as when the caller passes the name of a subclass method. -/
def add_function (s : State) (func : NamedFunc)
    (markers measurements axes angles : List String)
    (returns_axes returns_angles : Option (List String)) :
    Except (ConfigError × State) State :=
  if returns_axes.isSome ∧ returns_angles.isSome then
    .error (.bothAxesAndAngles, s)
  else if returns_axes.isNone ∧ returns_angles.isNone then
    .error (.neitherAxesNorAngles, s)
  else
    let params := buildParams s markers measurements axes angles
    let s1 := match returns_axes with
      | none => s
      | some ra =>
        let funcs := s.axis_funcs ++ [func]
        let fmap := buildMapping (funcs.map (fun f => f.name))
        let m := dictInsert s.axis_result_mapping func.name ra
        let na := chainCount m
        let fparams := s.axis_func_parameters ++ [[]]
        { s with
          axis_funcs := funcs,
          axis_func_mapping := fmap,
          axis_func_parameters :=
            fparams.set ((fmap.lookup func.name).getD 0) params,
          axis_result_mapping := m,
          axis_keys := s.axis_keys ++ ra,
          num_axes := na,
          axis_mapping := buildMapping (s.axis_keys ++ ra),
          num_axis_floats_per_frame := na * 16,
          axis_results_shape := (s.num_frames, na, 4, 4) }
    match returns_angles with
    | none => .ok s1
    | some rg =>
      let funcs := s1.angle_funcs ++ [func]
      let fmap := buildMapping (funcs.map (fun f => f.name))
      let m := dictInsert s1.angle_result_mapping func.name rg
      let ng := chainCount m
      let fparams := s1.angle_func_parameters ++ [[]]
      .ok { s1 with
        angle_funcs := funcs,
        angle_func_mapping := fmap,
        angle_func_parameters :=
          fparams.set ((fmap.lookup func.name).getD 0) params,
        angle_result_mapping := m,
        angle_keys := s1.angle_keys ++ rg,
        num_angles := ng,
        angle_mapping := buildMapping (s1.angle_keys ++ rg),
        num_angle_floats_per_frame := ng * 3,
        angle_results_shape := (s1.num_frames, ng, 3) }

/-! ### The trial runner `pyCGM.run` (lines 619-652), the parallel
dispatcher `pyCGM.multi_run` (lines 581-617) and result structuring
(lines 561-579) -/

mutual
/-- Numpy `np.asarray(v).flatten()` for a clean nested float array; `None` or a
passed-through object inside the result makes the flat float buffer
ill-formed (object dtype), modelled as failure. -/
def flattenValue : Value → Option (List ℚ)
  | .float q => some [q]
  | .pynone => none
  | .obj _ => none
  | .arr vs => flattenValues vs

/-- Flatten a list of values by concatenating their flattenings. -/
def flattenValues : List Value → Option (List ℚ)
  | [] => some []
  | v :: vs =>
    match flattenValue v, flattenValues vs with
    | some a, some b => some (a ++ b)
    | _, _ => none
end

/-- One frame's contribution to the flat result buffers:
`self.calc(frame)[0].flatten()` and `self.calc(frame)[1].flatten()`. -/
def calcFlat (s : State) (frame : List ℚ) : Option (List ℚ × List ℚ) :=
  match calcFrame s frame with
  | none => none
  | some (axis_results, angle_results) =>
    match flattenValues axis_results, flattenValues angle_results with
    | some fa, some fb => some (fa, fb)
    | _, _ => none

/-- The per-frame loop of `run`: append each frame's flattened axis and
angle outputs, in frame order, to two growing flat buffers. -/
def workerFlat (s : State) : List (List ℚ) → Option (List ℚ × List ℚ)
  | [] => some ([], [])
  | f :: fs =>
    match calcFlat s f, workerFlat s fs with
    | some (a, b), some (ra, rb) => some (a ++ ra, b ++ rb)
    | _, _ => none

/-- A frame the pipeline handles cleanly: `calc` succeeds on it and its
flattened outputs fill exactly one frame's blocks of the result
buffers. -/
def frameOk (s : State) (f : List ℚ) : Prop :=
  ∃ a b, calcFlat s f = some (a, b) ∧
    a.length = s.num_axis_floats_per_frame ∧
    b.length = s.num_angle_floats_per_frame

/-- Numpy slice assignment `buf[lo:hi] = vals` in the exact-fit case;
a length mismatch (ValueError) is modelled as failure. -/
def writeRange (buf : List ℚ) (lo hi : Nat) (vals : List ℚ) :
    Option (List ℚ) :=
  if lo ≤ hi ∧ hi ≤ buf.length ∧ vals.length = hi - lo then
    some (buf.take lo ++ vals ++ buf.drop hi)
  else none

/-- Split `flat` into consecutive chunks of `n` floats (the row extraction
of a numpy reshape); the fuel argument makes the recursion structural. -/
def chunksGo (n : Nat) : Nat → List ℚ → List (List ℚ)
  | 0, _ => []
  | _, [] => []
  | fuel + 1, x :: xs => (x :: xs).take n :: chunksGo n fuel ((x :: xs).drop n)

def chunkList (n : Nat) (flat : List ℚ) : List (List ℚ) :=
  chunksGo n flat.length flat

/-- Method `pyCGM.structure_trial_axes`: build the structured row dtype
keyed by `chain(*self.axis_result_mapping.values())` — `np.dtype` raises
ValueError on a duplicate field name — then reshape the flat buffer to
`self.axis_results_shape` (a size mismatch raises) and convert each
frame's rows to one keyed tuple (when at least one frame exists, a row
count `na` different from the field count raises, since a tuple of `na`
rows cannot fill `len(keys)` fields).  Every failure path is `none`. -/
def structure_trial_axes (s : State) (flat : List ℚ) :
    Option (List String × List (List (List ℚ))) :=
  let axis_result_keys := chainKeys s.axis_result_mapping
  match s.axis_results_shape with
  | (nf, na, r, c) =>
    if axis_result_keys.Nodup ∧ flat.length = nf * (na * (r * c)) ∧
        (nf = 0 ∨ na = axis_result_keys.length) then
      some (axis_result_keys,
        (chunkList (na * (r * c)) flat).map (chunkList (r * c)))
    else none

/-- Method `pyCGM.structure_trial_angles`: likewise for the flat angle
buffer, `self.angle_results_shape` and the angle result names, with the
same three numpy failure paths (duplicate dtype field name, reshape size
mismatch, row count vs field count). -/
def structure_trial_angles (s : State) (flat : List ℚ) :
    Option (List String × List (List (List ℚ))) :=
  let angle_result_keys := chainKeys s.angle_result_mapping
  match s.angle_results_shape with
  | (nf, ng, w) =>
    if angle_result_keys.Nodup ∧ flat.length = nf * (ng * w) ∧
        (nf = 0 ∨ ng = angle_result_keys.length) then
      some (angle_result_keys,
        (chunkList (ng * w) flat).map (chunkList w))
    else none

/-- What a `run` call produces: the updated shared buffers (worker mode)
or the structured axis and angle tables (sequential mode). -/
inductive RunResult : Type
  | sharedRes (axes angles : List ℚ)
  | structuredRes (axes angles : List String × List (List (List ℚ)))

/-- Method `pyCGM.run`.  With shared buffers it evaluates the given `frames` and
writes their flattened results into the index range
`[index_offset * size, index_end * size)` of each buffer.  Without shared
buffers it evaluates `self.marker_data` — the `frames` argument is not
consulted — and structures the results. -/
def run (s : State) (frames : List (List ℚ))
    (index_offset index_end axis_results_size angle_results_size : Nat)
    (sharedBufs : Option (List ℚ × List ℚ)) : Option RunResult :=
  match sharedBufs with
  | some (shared_axes, shared_angles) =>
    match workerFlat s frames with
    | none => none
    | some (fa, fb) =>
      match writeRange shared_axes (index_offset * axis_results_size)
            (index_end * axis_results_size) fa,
          writeRange shared_angles (index_offset * angle_results_size)
            (index_end * angle_results_size) fb with
      | some sa, some sb => some (.sharedRes sa sb)
      | _, _ => none
  | none =>
    match workerFlat s s.marker_data with
    | none => none
    | some (fa, fb) =>
      match structure_trial_axes s fa, structure_trial_angles s fb with
      | some axes, some angles => some (.structuredRes axes angles)
      | _, _ => none

/-- The block sizes of `np.array_split(l, k)`: the first `l.length % k`
blocks one element longer than the remaining ones. -/
def splitSizes (n k : Nat) : List Nat :=
  (List.range k).map (fun i => if i < n % k then n / k + 1 else n / k)

def takeDropChunks {α : Type} (l : List α) : List Nat → List (List α)
  | [] => []
  | sz :: szs => l.take sz :: takeDropChunks (l.drop sz) szs

/-- Numpy `np.array_split(l, k)`: `k` contiguous blocks in order. -/
def arraySplit {α : Type} (l : List α) (k : Nat) : List (List α) :=
  takeDropChunks l (splitSizes l.length k)

/-- The worker loop of `multi_run`: start one `run` per block, each
writing its block's frame range of the shared buffers.  The writes target
disjoint pre-assigned ranges, so running them in block order is
equivalent to any interleaving. -/
def multiRunGo (s : State) :
    List (List (List ℚ)) → Nat → List ℚ × List ℚ → Option (List ℚ × List ℚ)
  | [], _, bufs => some bufs
  | block :: blocks, frame_index_offset, (ba, bb) =>
    match run s block frame_index_offset (frame_index_offset + block.length)
        s.num_axis_floats_per_frame s.num_angle_floats_per_frame
        (some (ba, bb)) with
    | some (.sharedRes sa sb) => multiRunGo s blocks
        (frame_index_offset + block.length) (sa, sb)
    | _ => none

/-- Method `pyCGM.multi_run`: allocate zeroed shared buffers of
`num_frames * num_axes * 16` and `num_frames * num_angles * 3` floats,
split `marker_data` into `cores` blocks, run the workers, and structure
the assembled buffers (`cores = 0` is the `np.array_split` ValueError). -/
def multi_run (s : State) (cores : Nat) :
    Option ((List String × List (List (List ℚ))) ×
      (List String × List (List (List ℚ)))) :=
  if cores = 0 then none
  else
    match multiRunGo s (arraySplit s.marker_data cores) 0
        (List.replicate (s.num_frames * (s.num_axes * 16)) 0,
         List.replicate (s.num_frames * (s.num_angles * 3)) 0) with
    | none => none
    | some (sa, sb) =>
      match structure_trial_axes s sa, structure_trial_angles s sb with
      | some axes, some angles => some (axes, angles)
      | _, _ => none

/-- Calling `self.run()` with all arguments defaulted: the sequential whole-trial
run, returning the structured axis and angle tables. -/
def run_all (s : State) :
    Option ((List String × List (List (List ℚ))) ×
      (List String × List (List (List ℚ)))) :=
  match run s [] 0 0 0 0 none with
  | some (.structuredRes axes angles) => some (axes, angles)
  | _ => none

/-! ### The constructor `pyCGM.__init__` (lines 35-348)

`static.getStatic` (static-trial calibration) and the geometry-function
lists `CalcAxes().funcs` / `CalcAngles().funcs` live in external modules
(out of scope per the spec), so the calibrated measurement table and the
two function lists are taken as arguments; the `hasattr` subclass-override
substitution on those lists is subsumed by passing the final lists.  A
dynamic-trial frame is an ordered name → 3-D position table. -/

def default_axis_keys : List String :=
  ["Pelvis", "RHipJC", "LHipJC", "Hip", "RKnee", "LKnee", "RAnkle",
   "LAnkle", "RFoot", "LFoot", "Head", "Thorax", "RWand", "LWand",
   "RClavJC", "LClavJC", "RClav", "LClav", "RHum", "LHum", "RWristJC",
   "LWristJC", "RRad", "LRad", "RHand", "LHand"]

def default_angle_keys : List String :=
  ["Pelvis", "RHip", "LHip", "RKnee", "LKnee", "RAnkle", "LAnkle",
   "RFoot", "LFoot", "Head", "Thorax", "Neck", "Spine", "RShoulder",
   "LShoulder", "RElbow", "LElbow", "RWrist", "LWrist"]

def defaultAxisResultMapping : List (String × List String) :=
  [("pelvis_axis", ["Pelvis"]),
   ("hip_joint_center", ["RHipJC", "LHipJC"]),
   ("hip_axis", ["Hip"]),
   ("knee_axis", ["RKnee", "LKnee"]),
   ("ankle_axis", ["RAnkle", "LAnkle"]),
   ("foot_axis", ["RFoot", "LFoot"]),
   ("head_axis", ["Head"]),
   ("thorax_axis", ["Thorax"]),
   ("wand_marker", ["RWand", "LWand"]),
   ("clav_joint_center", ["RClavJC", "LClavJC"]),
   ("clav_axis", ["RClav", "LClav"]),
   ("hum_axis", ["RHum", "LHum", "RWristJC", "LWristJC"]),
   ("rad_axis", ["RRad", "LRad"]),
   ("hand_axis", ["RHand", "LHand"])]

def defaultAngleResultMapping : List (String × List String) :=
  [("pelvis_angle", ["Pelvis"]),
   ("hip_angle", ["RHip", "LHip"]),
   ("knee_angle", ["RKnee", "LKnee"]),
   ("ankle_angle", ["RAnkle", "LAnkle"]),
   ("foot_angle", ["RFoot", "LFoot"]),
   ("head_angle", ["Head"]),
   ("thorax_angle", ["Thorax"]),
   ("neck_angle", ["Neck"]),
   ("spine_angle", ["Spine"]),
   ("shoulder_angle", ["RShoulder", "LShoulder"]),
   ("elbow_angle", ["RElbow", "LElbow"]),
   ("wrist_angle", ["RWrist", "LWrist"])]

/-- The default bound parameter lists of the axis pipeline
(lines 108-259).  `mk` and `mv` are `self.Marker(self.marker_slice(n))`
and `self.Measurement(self.measurement_value(n))` against the freshly
built marker mapping and measurement table; `ax` is
`self.Axis(self.axis_index(n))`. -/
def defaultAxisFuncParameters (mm : List (String × (Nat × Nat)))
    (ms : List (String × ℚ)) (am : List (String × Nat)) :
    List (List Param) :=
  let mk := fun n => Param.marker (mm.lookup n)
  let mv := fun n => Param.measurement (ms.lookup n)
  let ax := fun n => Param.axis (am.lookup n)
  [[mk "RASI", mk "LASI", mk "RPSI", mk "LPSI", mk "SACR"],
   [ax "Pelvis", mv "MeanLegLength", mv "R_AsisToTrocanterMeasure",
    mv "L_AsisToTrocanterMeasure", mv "InterAsisDistance"],
   [ax "RHipJC", ax "LHipJC", ax "Pelvis"],
   [mk "RTHI", mk "LTHI", mk "RKNE", mk "LKNE", ax "RHipJC", ax "LHipJC",
    mv "RightKneeWidth", mv "LeftKneeWidth"],
   [mk "RTIB", mk "LTIB", mk "RANK", mk "LANK", ax "RKnee", ax "LKnee",
    mv "RightAnkleWidth", mv "LeftAnkleWidth", mv "RightTibialTorsion",
    mv "LeftTibialTorsion"],
   [mk "RTOE", mk "LTOE", ax "RAnkle", ax "LAnkle", mv "RightStaticRotOff",
    mv "LeftStaticRotOff", mv "RightStaticPlantFlex",
    mv "LeftStaticPlantFlex"],
   [mk "LFHD", mk "RFHD", mk "LBHD", mk "RBHD"],
   [mk "CLAV", mk "C7", mk "STRN", mk "T10"],
   [mk "RSHO", mk "LSHO", ax "Thorax"],
   [mk "RSHO", mk "LSHO", ax "Thorax", ax "RWand", ax "LWand",
    mv "RightShoulderOffset", mv "LeftShoulderOffset"],
   [ax "Thorax", ax "RClavJC", ax "LClavJC", ax "RWand", ax "LWand"],
   [mk "RELB", mk "LELB", mk "RWRA", mk "RWRB", mk "LWRA", mk "LWRB",
    ax "RClav", ax "LClav", mv "RightElbowWidth", mv "LeftElbowWidth",
    mv "RightWristWidth", mv "LeftWristWidth", Param.lit 7],
   [ax "RHum", ax "LHum", ax "RWristJC", ax "LWristJC"],
   [mk "RWRA", mk "RWRB", mk "LWRA", mk "LWRB", mk "RFIN", mk "LFIN",
    ax "RWristJC", ax "LWristJC", mv "RightHandThickness",
    mv "LeftHandThickness"]]

/-- The default bound parameter lists of the angle pipeline
(lines 261-348). -/
def defaultAngleFuncParameters (ms : List (String × ℚ))
    (am : List (String × Nat)) : List (List Param) :=
  let mv := fun n => Param.measurement (ms.lookup n)
  let ax := fun n => Param.axis (am.lookup n)
  [[mv "GCS", ax "Pelvis"],
   [ax "Hip", ax "RKnee", ax "Hip", ax "LKnee"],
   [ax "RKnee", ax "RAnkle", ax "LKnee", ax "LAnkle"],
   [ax "RAnkle", ax "RFoot", ax "LAnkle", ax "LFoot"],
   [mv "GCS", ax "RFoot", mv "GCS", ax "LFoot"],
   [mv "GCS", ax "Head"],
   [mv "GCS", ax "Thorax"],
   [ax "Head", ax "Thorax"],
   [ax "Pelvis", ax "Thorax"],
   [ax "Thorax", ax "RHum", ax "Thorax", ax "LHum"],
   [ax "RHum", ax "RRad", ax "LHum", ax "LRad"],
   [ax "RRad", ax "RHand", ax "LRad", ax "LHand"]]

/-- Flatten one dynamic-trial frame:
`np.asarray(list(frame.values())).flatten()`. -/
def flattenFrame (fr : List (String × (ℚ × ℚ × ℚ))) : List ℚ :=
  (fr.map (fun kv => [kv.2.1, kv.2.2.1, kv.2.2.2])).flatten

/-- The state built by `__init__` from a non-empty dynamic trial with
first frame `f0`. -/
def initState (measurements : List (String × ℚ))
    (f0 : List (String × (ℚ × ℚ × ℚ)))
    (rest : List (List (String × (ℚ × ℚ × ℚ))))
    (axisFns angleFns : List NamedFunc) : State :=
  let marker_mapping := f0.enum.map
    (fun p => (p.2.1, (p.1 * 3, p.1 * 3 + 3)))
  let marker_data := (f0 :: rest).map flattenFrame
  let num_frames := marker_data.length
  let num_axes := default_axis_keys.length
  let num_angles := default_angle_keys.length
  let axis_mapping := buildMapping default_axis_keys
  let angle_mapping := buildMapping default_angle_keys
  { marker_mapping := marker_mapping,
    measurements := measurements,
    marker_data := marker_data,
    num_frames := num_frames,
    axis_keys := default_axis_keys,
    angle_keys := default_angle_keys,
    axis_mapping := axis_mapping,
    angle_mapping := angle_mapping,
    axis_funcs := axisFns,
    angle_funcs := angleFns,
    axis_func_mapping := buildMapping (axisFns.map (fun f => f.name)),
    angle_func_mapping := buildMapping (angleFns.map (fun f => f.name)),
    axis_result_mapping := defaultAxisResultMapping,
    angle_result_mapping := defaultAngleResultMapping,
    axis_func_parameters :=
      defaultAxisFuncParameters marker_mapping measurements axis_mapping,
    angle_func_parameters :=
      defaultAngleFuncParameters measurements axis_mapping,
    num_axes := num_axes,
    num_angles := num_angles,
    num_axis_floats_per_frame := num_axes * 16,
    num_angle_floats_per_frame := num_angles * 3,
    axis_results_shape := (num_frames, num_axes, 4, 4),
    angle_results_shape := (num_frames, num_angles, 3) }

/-- Method `pyCGM.__init__`.  Line 44 evaluates `dynamic_trial[0].keys()` before
anything else touches the frames, so an empty dynamic trial raises
IndexError there — modelled as `none`. -/
def initModel (measurements : List (String × ℚ))
    (dynamic_trial : List (List (String × (ℚ × ℚ × ℚ))))
    (axisFns angleFns : List NamedFunc) : Option State :=
  match dynamic_trial with
  | [] => none
  | f0 :: rest => some (initState measurements f0 rest axisFns angleFns)

/-! ### The registry shape invariant (spec section 8) -/

/-- The per-frame float counts stay in step with the result-name
registry: `num_axis_floats_per_frame` is sixteen floats for every name
the axis result mapping produces, and `num_angle_floats_per_frame` three
floats for every angle result name. -/
def registryInv (s : State) : Prop :=
  s.num_axis_floats_per_frame = chainCount s.axis_result_mapping * 16 ∧
  s.num_angle_floats_per_frame = chainCount s.angle_result_mapping * 3

/-! ### Concrete instances used to exercise the model -/

/-- A geometry-function stub (function identity is all the registry
claims depend on). -/
def stubFn (n : String) : NamedFunc := ⟨n, fun _ => Value.pynone⟩

/-- The names of `CalcAxes().funcs`, in pipeline order (they are fixed by
the keys and comments of `axis_result_mapping` and
`axis_func_parameters`, lines 78-259). -/
def defaultAxisFuncNames : List String :=
  ["pelvis_axis", "hip_joint_center", "hip_axis", "knee_axis",
   "ankle_axis", "foot_axis", "head_axis", "thorax_axis", "wand_marker",
   "clav_joint_center", "clav_axis", "hum_axis", "rad_axis", "hand_axis"]

/-- The names of `CalcAngles().funcs`, in pipeline order. -/
def defaultAngleFuncNames : List String :=
  ["pelvis_angle", "hip_angle", "knee_angle", "ankle_angle", "foot_angle",
   "head_angle", "thorax_angle", "neck_angle", "spine_angle",
   "shoulder_angle", "elbow_angle", "wrist_angle"]

/-- A freshly constructed model: one dynamic frame with two markers, one
measurement, and the default pipeline over stub geometry functions. -/
def sInit : State :=
  initState [("GCS", 1)]
    [("RASI", (1, 2, 3)), ("LASI", (4, 5, 6))] []
    (defaultAxisFuncNames.map stubFn) (defaultAngleFuncNames.map stubFn)

/-- A state with everything empty, used as the base record for the small
hand-built pipeline states below. -/
def emptyState : State :=
  { marker_mapping := [], measurements := [], marker_data := [],
    num_frames := 0, axis_keys := [], angle_keys := [], axis_mapping := [],
    angle_mapping := [], axis_funcs := [], angle_funcs := [],
    axis_func_mapping := [], angle_func_mapping := [],
    axis_result_mapping := [], angle_result_mapping := [],
    axis_func_parameters := [], angle_func_parameters := [],
    num_axes := 0, num_angles := 0, num_axis_floats_per_frame := 0,
    num_angle_floats_per_frame := 0, axis_results_shape := (0, 0, 0, 0),
    angle_results_shape := (0, 0, 0) }

/-- The first float inside the first (array) argument. -/
def firstFloat (args : List Value) : Value :=
  match args with
  | Value.arr (v :: _) :: _ => v
  | _ => Value.pynone

/-- A two-frame single-axis single-angle model: the axis function turns
the frame's first float `x` into a 4x4 matrix of `x`s, the angle function
into a 3-vector of `x`s. -/
def sTwoFrames : State :=
  { emptyState with
    marker_data := [[1], [2]],
    num_frames := 2,
    axis_keys := ["A"], angle_keys := ["B"],
    axis_mapping := [("A", 0)], angle_mapping := [("B", 0)],
    axis_funcs := [⟨"const_axis", fun args =>
      Value.arr (List.replicate 4 (Value.arr
        (List.replicate 4 (firstFloat args))))⟩],
    angle_funcs := [⟨"const_angle", fun args =>
      Value.arr (List.replicate 3 (firstFloat args))⟩],
    axis_func_mapping := [("const_axis", 0)],
    angle_func_mapping := [("const_angle", 0)],
    axis_result_mapping := [("const_axis", ["A"])],
    angle_result_mapping := [("const_angle", ["B"])],
    axis_func_parameters := [[Param.marker (some (0, 1))]],
    angle_func_parameters := [[Param.marker (some (0, 1))]],
    num_axes := 1, num_angles := 1,
    num_axis_floats_per_frame := 16, num_angle_floats_per_frame := 3,
    axis_results_shape := (2, 1, 4, 4), angle_results_shape := (2, 1, 3) }

/-- An angle pipeline whose second entry consumes an `Angle` parameter
bound to index 0: the first function produces the 3-vector `[1, 2, 3]`,
the second returns its first argument unchanged, exposing what `calc`
hands it. -/
def sAnglePass : State :=
  { emptyState with
    angle_funcs :=
      [⟨"g1", fun _ => Value.arr [.float 1, .float 2, .float 3]⟩,
       ⟨"g2", fun args => args.headD Value.pynone⟩],
    angle_func_parameters := [[], [Param.angle (some 0)]] }

/-- A model whose marker table lacks "SACR"; its only axis function
returns its first argument unchanged, exposing what `calc` hands it for
the absent marker. -/
def sNoSacrum : State :=
  { emptyState with
    marker_mapping := [("RASI", (0, 3))],
    axis_funcs := [⟨"probe", fun args => args.headD Value.pynone⟩],
    axis_func_parameters :=
      [buildParams { emptyState with
          marker_mapping := [("RASI", (0, 3))] } ["SACR"] [] [] []] }

/-! ## Theorems -/

/-- C8: the spec's zero-frame boundary property fails: `__init__`
evaluates `dynamic_trial[0].keys()`, so constructing a model from a
zero-frame dynamic trial raises IndexError instead of succeeding with
`num_frames = 0` metadata. -/
theorem init_zero_frames_crashes :
    initModel [("GCS", 1)] [] (defaultAxisFuncNames.map stubFn)
      (defaultAngleFuncNames.map stubFn) = none := rfl

/-- C3: in the angle pass of `calc` an `Angle` parameter bound to index 0
is not resolved to `angle_results[0]` (here `[1, 2, 3]`, produced by the
first entry): `calc` has no `Angle` branch, so the consuming function
receives the wrapper object itself through the pass-through branch. -/
theorem angle_param_not_resolved :
    calcFrame sAnglePass [] =
      some ([], [.arr [.float 1, .float 2, .float 3],
                 .obj (.angle (some 0))]) ∧
    Value.obj (.angle (some 0)) ≠ Value.arr [.float 1, .float 2, .float 3] :=
  ⟨rfl, by simp⟩

/-- C7: binding the absent marker "SACR" yields an explicit
`Marker(None)` parameter without failing, but at evaluation `calc`
computes `frame[None]` — the whole frame buffer under a new leading axis
— so the consuming geometry function receives that array, not `None`. -/
theorem absent_marker_binds_but_calc_passes_newaxis :
    buildParams { emptyState with marker_mapping := [("RASI", (0, 3))] }
        ["SACR"] [] [] [] = [Param.marker none] ∧
    calcAxes sNoSacrum [1, 2, 3] =
      some [.arr [.arr [.float 1, .float 2, .float 3]]] ∧
    Value.arr [.arr [.float 1, .float 2, .float 3]] ≠ Value.pynone :=
  ⟨rfl, rfl, by simp⟩

/-- C6: `modify_function` with a function name present in neither the
axis nor the angle function mapping fails with a configuration error
(`sys.exit`), whatever else is passed. -/
theorem modify_function_unknown_name_fails (s : State) (function : String)
    (g : List Value → Value) (ms mes axs angs : List String)
    (ra rg : Option (List String))
    (h1 : s.axis_func_mapping.lookup function = none)
    (h2 : s.angle_func_mapping.lookup function = none) :
    ∃ e, modify_function s function g ms mes axs angs ra rg = .error e := by
  unfold modify_function
  by_cases hb : ra.isSome ∧ rg.isSome
  · exact ⟨(.bothAxesAndAngles, s), by simp [hb]⟩
  · exact ⟨(.functionNotFound, s), by simp [hb, h1, h2]⟩

theorem modify_function_unknown_name_fails_witness :
    ∃ e, modify_function sInit "no_such_function" (fun _ => Value.pynone)
      [] [] [] [] none none = .error e :=
  modify_function_unknown_name_fails sInit "no_such_function"
    (fun _ => Value.pynone) [] [] [] [] none none rfl rfl

/-- C5: `add_function` with both some and some, or none and none, of
`returns_axes`/`returns_angles` fails with a configuration error, and the
error is raised before any statement mutates the instance — the state
carried out is exactly the input state. -/
theorem add_function_both_or_neither_fails (s : State) (func : NamedFunc)
    (ms mes axs angs : List String) (ra rg : Option (List String))
    (h : (ra.isSome ∧ rg.isSome) ∨ (ra = none ∧ rg = none)) :
    ∃ e, add_function s func ms mes axs angs ra rg = .error (e, s) := by
  unfold add_function
  rcases h with ⟨h1, h2⟩ | ⟨h1, h2⟩
  · exact ⟨.bothAxesAndAngles, by simp [h1, h2]⟩
  · subst h1; subst h2
    exact ⟨.neitherAxesNorAngles, by simp⟩

theorem add_function_both_or_neither_fails_witness :
    (∃ e, add_function sInit (stubFn "f_new") [] [] [] []
        (some ["X"]) (some ["Y"]) = .error (e, sInit)) ∧
    (∃ e, add_function sInit (stubFn "f_new") [] [] [] []
        none none = .error (e, sInit)) :=
  ⟨add_function_both_or_neither_fails sInit (stubFn "f_new") [] [] [] []
      (some ["X"]) (some ["Y"]) (Or.inl ⟨rfl, rfl⟩),
   add_function_both_or_neither_fails sInit (stubFn "f_new") [] [] [] []
      none none (Or.inr ⟨rfl, rfl⟩)⟩

/-- The two trailing return-mapping update blocks of `modify_function`
preserve the float-count/result-mapping correspondence. -/
theorem modifyReturns_registryInv (s1 : State) (function : String)
    (ra rg : Option (List String)) (hInv : registryInv s1) :
    registryInv (modify_function.modifyReturns s1 function ra rg) := by
  unfold modify_function.modifyReturns
  rcases ra with _ | ra' <;> rcases rg with _ | rg'
  · exact ⟨hInv.1, hInv.2⟩
  · exact ⟨hInv.1, rfl⟩
  · exact ⟨rfl, hInv.2⟩
  · exact ⟨rfl, rfl⟩

/-- C4 (counterexample to the claim as stated): a successful
`modify_function` that overrides `pelvis_axis` to return two axis names
leaves the registered axis-name list `axis_keys` at its 26 entries
(`modify_function` never extends it) while recomputing
`num_axis_floats_per_frame` from the result mapping as `27 * 16`:
`len(axis_keys) * 16 = 416 ≠ 432`. -/
theorem modify_function_desyncs_axis_keys :
    (modify_function sInit "pelvis_axis" (fun _ => Value.pynone)
        [] [] [] [] (some ["PelvisA", "PelvisB"]) none).toOption.map
      (fun t => (t.axis_keys.length * 16, t.num_axis_floats_per_frame))
      = some (416, 432) ∧ (416 : Nat) ≠ 432 :=
  ⟨rfl, by decide⟩

/-- C4 (amended): after every successful `modify_function` or
`add_function` call, the per-frame float counts track the result-name
registry as recorded in the result mappings: the number of axis names the
pipeline produces (`chain(*axis_result_mapping.values())`) times 16
equals `num_axis_floats_per_frame`, and the angle analogue times 3 equals
`num_angle_floats_per_frame` — provided the pre-state already satisfied
that correspondence (it holds from construction). -/
theorem registry_floats_track_result_mapping
    (s s' : State) (function : String) (g : List Value → Value)
    (nf : NamedFunc) (ms mes axs angs : List String)
    (ra rg : Option (List String)) (hInv : registryInv s)
    (h : modify_function s function g ms mes axs angs ra rg = .ok s'
       ∨ add_function s nf ms mes axs angs ra rg = .ok s') :
    registryInv s' := by
  rcases h with h | h
  · unfold modify_function at h
    split at h
    · simp at h
    · split at h
      · simp only [Except.ok.injEq] at h
        subst h
        exact modifyReturns_registryInv _ function ra rg ⟨hInv.1, hInv.2⟩
      · simp only [Except.ok.injEq] at h
        subst h
        exact modifyReturns_registryInv _ function ra rg ⟨hInv.1, hInv.2⟩
      · simp at h
  · unfold add_function at h
    split at h
    · simp at h
    · split at h
      · simp at h
      · rcases ra with _ | ra' <;> rcases rg with _ | rg' <;>
          simp only [Except.ok.injEq] at h
        · rename_i hboth hneither
          exact absurd ⟨rfl, rfl⟩ hneither
        · subst h; exact ⟨hInv.1, rfl⟩
        · subst h; exact ⟨rfl, hInv.2⟩
        · subst h; exact ⟨rfl, rfl⟩

theorem registry_floats_track_result_mapping_witness :
    ∃ s', modify_function sInit "pelvis_axis" (fun _ => Value.pynone)
        [] [] [] [] (some ["PelvisA", "PelvisB"]) none = .ok s' ∧
      registryInv s' := by
  refine ⟨_, rfl, ?_⟩
  exact registry_floats_track_result_mapping sInit _ "pelvis_axis"
    (fun _ => Value.pynone) (stubFn "unused") [] [] [] []
    (some ["PelvisA", "PelvisB"]) none ⟨rfl, rfl⟩ (Or.inl rfl)

/-! ### Dictionary and parameter-list lemmas -/

theorem lookup_map_replace {α : Type} (k : String) (v : α) :
    ∀ d : List (String × α),
      (d.map (fun kv => if kv.1 = k then (k, v) else kv)).lookup k =
        if (d.lookup k).isSome then some v else none := by
  intro d
  induction d with
  | nil => simp
  | cons a t ih =>
    obtain ⟨a1, a2⟩ := a
    by_cases h : a1 = k
    · subst h
      simp [List.lookup_cons, ih]
    · have hb : (k == a1) = false := beq_eq_false_iff_ne.mpr (Ne.symm h)
      have hA : List.lookup k ((a1, a2) :: t) = List.lookup k t := by
        rw [List.lookup_cons, hb]
      have hL : List.lookup k
          ((a1, a2) :: t.map (fun kv => if kv.1 = k then (k, v) else kv)) =
          List.lookup k (t.map (fun kv => if kv.1 = k then (k, v) else kv)) := by
        rw [List.lookup_cons, hb]
      rw [List.map_cons, if_neg h, hL, hA, ih]

theorem lookup_append_singleton_self {α : Type} (k : String) (v : α) :
    ∀ d : List (String × α), d.lookup k = none →
      (d ++ [(k, v)]).lookup k = some v := by
  intro d
  induction d with
  | nil => simp [List.lookup_cons]
  | cons a t ih =>
    obtain ⟨a1, a2⟩ := a
    intro h
    rw [List.lookup_cons] at h
    rw [List.cons_append, List.lookup_cons]
    cases hb : (k == a1) with
    | true => simp [hb] at h
    | false =>
      simp only [hb] at h ⊢
      exact ih h

/-- A Python dict store `d[k] = v` makes a later `d[k]` yield `v`. -/
theorem dictInsert_lookup_self {α : Type} (d : List (String × α))
    (k : String) (v : α) : (dictInsert d k v).lookup k = some v := by
  unfold dictInsert
  by_cases h : (d.lookup k).isSome
  · rw [if_pos h, lookup_map_replace]
    simp [h]
  · rw [if_neg h]
    exact lookup_append_singleton_self k v d
      (Option.not_isSome_iff_eq_none.mp h)

/-- Appending one name to the enumeration dict comprehension is a single
dict store of the next index. -/
theorem buildMapping_append_last (names : List String) (name : String) :
    buildMapping (names ++ [name]) =
      dictInsert (buildMapping names) name names.length := by
  unfold buildMapping
  rw [List.enum_append, List.foldl_append]
  simp [List.enumFrom]

/-- Looking up `name` in the enumeration dict comprehension over
`names + [name]` yields the appended position (the comprehension's last
occurrence wins). -/
theorem buildMapping_lookup_last (names : List String) (name : String) :
    (buildMapping (names ++ [name])).lookup name = some names.length := by
  rw [buildMapping_append_last]
  exact dictInsert_lookup_self _ _ _

theorem foldl_append_singleton {α β : Type} (f : α → β) :
    ∀ (l : List α) (init : List β),
      l.foldl (fun acc n => acc ++ [f n]) init = init ++ l.map f := by
  intro l
  induction l with
  | nil => simp
  | cons a t ih => intro init; simp [ih]

/-- The four append loops of parameter building produce the four
kind-grouped maps, concatenated. -/
theorem buildParams_eq (s : State) (ms mes axs angs : List String) :
    buildParams s ms mes axs angs =
      ms.map (fun n => Param.marker (s.marker_slice n)) ++
      (mes.map (fun n => Param.measurement (s.measurement_value n)) ++
       (axs.map (fun n => Param.axis (s.axis_index n)) ++
        angs.map (fun n => Param.angle (s.angle_index n)))) := by
  unfold buildParams
  simp [foldl_append_singleton, List.append_assoc]

/-- C10: both `modify_function` and `add_function` deliver the bound
parameter list grouped by kind — all markers first, then measurements,
then axes, then angles, each group in caller order — whatever the
function's own signature interleaves: the list built from the four append
loops is the grouped concatenation, and it is exactly what is stored in
`axis_func_parameters` for the overridden entry (at its index `i`) and
for the added entry (at the appended index `len(axis_funcs)`). -/
theorem bound_params_grouped_by_kind
    (s : State) (ms mes axs angs : List String)
    (fn : String) (g : List Value → Value) (i : Nat) (s' : State)
    (hi : s.axis_func_mapping.lookup fn = some i)
    (hilen : i < s.axis_func_parameters.length)
    (hm : modify_function s fn g ms mes axs angs none none = .ok s')
    (nf : NamedFunc) (t' : State)
    (hlen : s.axis_func_parameters.length = s.axis_funcs.length)
    (ha : add_function s nf ms mes axs angs (some ["N"]) none = .ok t') :
    buildParams s ms mes axs angs =
      ms.map (fun n => Param.marker (s.marker_slice n)) ++
      (mes.map (fun n => Param.measurement (s.measurement_value n)) ++
       (axs.map (fun n => Param.axis (s.axis_index n)) ++
        angs.map (fun n => Param.angle (s.angle_index n)))) ∧
    s'.axis_func_parameters[i]? = some (buildParams s ms mes axs angs) ∧
    t'.axis_func_parameters[s.axis_funcs.length]? =
      some (buildParams s ms mes axs angs) := by
  refine ⟨buildParams_eq s ms mes axs angs, ?_, ?_⟩
  · unfold modify_function at hm
    rw [if_neg (by simp)] at hm
    rw [hi] at hm
    simp only [Except.ok.injEq] at hm
    subst hm
    show (s.axis_func_parameters.set i
        (buildParams s ms mes axs angs))[i]? =
      some (buildParams s ms mes axs angs)
    exact List.getElem?_set_self hilen
  · unfold add_function at ha
    rw [if_neg (by simp), if_neg (by simp)] at ha
    simp only [Except.ok.injEq] at ha
    subst ha
    have hmap : ((s.axis_funcs ++ [nf]).map (fun f => f.name)) =
        (s.axis_funcs.map (fun f => f.name)) ++ [nf.name] := by simp
    have hl : (buildMapping
        ((s.axis_funcs ++ [nf]).map (fun f => f.name))).lookup nf.name =
        some s.axis_funcs.length := by
      rw [hmap, buildMapping_lookup_last]
      simp
    simp only [hl, Option.getD_some]
    have hlt : s.axis_funcs.length <
        (s.axis_func_parameters ++ [[]]).length := by
      simp [hlen]
    show ((s.axis_func_parameters ++ [[]]).set s.axis_funcs.length
        (buildParams s ms mes axs angs))[s.axis_funcs.length]? =
      some (buildParams s ms mes axs angs)
    exact List.getElem?_set_self hlt

theorem bound_params_grouped_by_kind_witness :
    ∃ s' t',
      modify_function sInit "pelvis_axis" (fun _ => Value.pynone)
        ["RASI"] ["GCS"] ["Pelvis"] ["Pelvis"] none none = .ok s' ∧
      add_function sInit (stubFn "custom_axis")
        ["RASI"] ["GCS"] ["Pelvis"] ["Pelvis"] (some ["N"]) none = .ok t' ∧
      (buildParams sInit ["RASI"] ["GCS"] ["Pelvis"] ["Pelvis"] =
          ["RASI"].map (fun n => Param.marker (sInit.marker_slice n)) ++
          (["GCS"].map
              (fun n => Param.measurement (sInit.measurement_value n)) ++
           (["Pelvis"].map (fun n => Param.axis (sInit.axis_index n)) ++
            ["Pelvis"].map (fun n => Param.angle (sInit.angle_index n)))) ∧
       s'.axis_func_parameters[0]? =
         some (buildParams sInit ["RASI"] ["GCS"] ["Pelvis"] ["Pelvis"]) ∧
       t'.axis_func_parameters[sInit.axis_funcs.length]? =
         some (buildParams sInit ["RASI"] ["GCS"] ["Pelvis"] ["Pelvis"])) := by
  refine ⟨_, _, rfl, rfl, ?_⟩
  exact bound_params_grouped_by_kind sInit ["RASI"] ["GCS"] ["Pelvis"]
    ["Pelvis"] "pelvis_axis" (fun _ => Value.pynone) 0 _ rfl (by decide) rfl
    (stubFn "custom_axis") _ rfl rfl

/-! ### The frame evaluator characterisation -/

/-- Unrolling the axis pass: every successful run is the in-order
concatenation of one output group per entry, each computed from the
parameters resolved against exactly the groups of the earlier entries. -/
theorem calcAxesGo_spec (frame : List ℚ) :
    ∀ (fs : List NamedFunc) (pss : List (List Param)) (acc res : List Value),
      calcAxesGo frame fs pss acc = some res →
      ∃ outs : List (List Value),
        res = acc ++ outs.flatten ∧ outs.length = fs.length ∧
        ∀ k, k < fs.length →
          ∃ f ps args, fs[k]? = some f ∧ pss[k]? = some ps ∧
            resolveParams frame (acc ++ (outs.take k).flatten) ps
              = some args ∧
            outs[k]? = some (retListAxes (f.fn args)) := by
  intro fs
  induction fs with
  | nil =>
    intro pss acc res h
    refine ⟨[], ?_, rfl, ?_⟩
    · simp only [calcAxesGo, Option.some.injEq] at h
      simp [h]
    · intro k hk
      exact absurd hk (Nat.not_lt_zero k)
  | cons f fs ih =>
    intro pss acc res h
    cases pss with
    | nil => simp [calcAxesGo] at h
    | cons ps pss =>
      simp only [calcAxesGo] at h
      cases hr : resolveParams frame acc ps with
      | none => rw [hr] at h; simp at h
      | some args =>
        rw [hr] at h
        obtain ⟨outs, hres, hlen, hprop⟩ := ih pss _ res h
        refine ⟨retListAxes (f.fn args) :: outs, ?_, by simp [hlen], ?_⟩
        · simp only [List.flatten_cons, hres, List.append_assoc]
        · intro k hk
          cases k with
          | zero =>
            exact ⟨f, ps, args, by simp, by simp, by simpa using hr, by simp⟩
          | succ k =>
            obtain ⟨fk, psk, argsk, h1, h2, h3, h4⟩ :=
              hprop k (Nat.lt_of_succ_lt_succ hk)
            refine ⟨fk, psk, argsk, by simpa using h1, by simpa using h2,
              ?_, by simpa using h4⟩
            rw [← h3]
            simp [List.append_assoc]

/-- C1: a successful axis pass over a frame decomposes into one output
group per pipeline entry, in declaration order: entry `k`'s bound
parameters are resolved (markers against the frame buffer, measurements
and literals to their bound values, axis references into the groups
already appended by entries before `k`), the function is applied, and its
single matrix — or each matrix of a returned stack, in order — is
appended; the final result is the concatenation of all groups. -/
theorem calc_axis_pass_follows_declaration_order (s : State)
    (frame : List ℚ) (res : List Value)
    (h : calcAxes s frame = some res) :
    ∃ outs : List (List Value),
      res = outs.flatten ∧ outs.length = s.axis_funcs.length ∧
      ∀ k, k < s.axis_funcs.length →
        ∃ f ps args, s.axis_funcs[k]? = some f ∧
          s.axis_func_parameters[k]? = some ps ∧
          resolveParams frame (outs.take k).flatten ps = some args ∧
          outs[k]? = some (retListAxes (f.fn args)) := by
  obtain ⟨outs, h1, h2, h3⟩ :=
    calcAxesGo_spec frame s.axis_funcs s.axis_func_parameters [] res h
  refine ⟨outs, by simpa using h1, h2, ?_⟩
  intro k hk
  obtain ⟨f, ps, args, g1, g2, g3, g4⟩ := h3 k hk
  exact ⟨f, ps, args, g1, g2, by simpa using g3, g4⟩

theorem calc_axis_pass_follows_declaration_order_witness :
    ∃ outs : List (List Value),
      [Value.arr (List.replicate 4 (Value.arr (List.replicate 4
          (Value.float 1))))] = outs.flatten ∧
      outs.length = sTwoFrames.axis_funcs.length ∧
      ∀ k, k < sTwoFrames.axis_funcs.length →
        ∃ f ps args, sTwoFrames.axis_funcs[k]? = some f ∧
          sTwoFrames.axis_func_parameters[k]? = some ps ∧
          resolveParams [1] (outs.take k).flatten ps = some args ∧
          outs[k]? = some (retListAxes (f.fn args)) :=
  calc_axis_pass_follows_declaration_order sTwoFrames [1]
    [Value.arr (List.replicate 4 (Value.arr (List.replicate 4
        (Value.float 1))))] rfl

/-! ### Run frame-argument semantics -/

/-- C9 (counterexample to the claim as stated): the sequential
(non-shared-memory) branch of `run`, given only the first frame of the
two-frame trial, still evaluates and returns both stored frames — the
structured output has two frame rows, not one. -/
theorem run_sequential_ignores_frames_argument :
    run sTwoFrames [[1]] 0 0 0 0 none =
      some (.structuredRes
        (["A"], [[List.replicate 16 1], [List.replicate 16 2]])
        (["B"], [[List.replicate 3 1], [List.replicate 3 2]])) ∧
    some (RunResult.structuredRes
        (["A"], [[List.replicate 16 (1 : ℚ)], [List.replicate 16 2]])
        (["B"], [[List.replicate 3 (1 : ℚ)], [List.replicate 3 2]])) ≠
      some (RunResult.structuredRes
        (["A"], [[List.replicate 16 (1 : ℚ)]])
        (["B"], [[List.replicate 3 (1 : ℚ)]])) :=
  ⟨rfl, by simp⟩

/-- C9 (amended): with shared buffers, `run` evaluates exactly the given
frames, in their given order, and writes their concatenated flattened
results into the assigned buffer range; without shared buffers, the
sequential branch ignores the `frames` argument (and the index and size
arguments) entirely and evaluates the whole stored trial. -/
theorem run_frames_argument_semantics (s : State)
    (frames frames2 : List (List ℚ)) (o e S T o2 e2 S2 T2 : Nat)
    (ba bb fa fb sa sb : List ℚ)
    (hw : workerFlat s frames = some (fa, fb))
    (h1 : writeRange ba (o * S) (e * S) fa = some sa)
    (h2 : writeRange bb (o * T) (e * T) fb = some sb) :
    run s frames o e S T (some (ba, bb)) = some (.sharedRes sa sb) ∧
    run s frames o e S T none = run s frames2 o2 e2 S2 T2 none := by
  constructor
  · simp [run, hw, h1, h2]
  · rfl

theorem run_frames_argument_semantics_witness :
    run sTwoFrames [[2]] 1 2 16 3
      (some (List.replicate 32 0, List.replicate 6 0)) =
      some (.sharedRes (List.replicate 16 0 ++ List.replicate 16 2)
        (List.replicate 3 0 ++ List.replicate 3 2)) ∧
    run sTwoFrames [[2]] 1 2 16 3 none =
      run sTwoFrames [] 0 0 0 0 none := by
  have h := run_frames_argument_semantics sTwoFrames [[2]] [] 1 2 16 3
    0 0 0 0 (List.replicate 32 0) (List.replicate 6 0)
    (List.replicate 16 2) (List.replicate 3 2) _ _ rfl rfl rfl
  exact h

/-! ### Flat-buffer assembly lemmas for the parallel dispatcher -/

theorem workerFlat_ok (s : State) :
    ∀ fs : List (List ℚ), (∀ f ∈ fs, frameOk s f) →
      ∃ fa fb, workerFlat s fs = some (fa, fb) ∧
        fa.length = fs.length * s.num_axis_floats_per_frame ∧
        fb.length = fs.length * s.num_angle_floats_per_frame := by
  intro fs
  induction fs with
  | nil => exact fun _ => ⟨[], [], rfl, by simp, by simp⟩
  | cons f t ih =>
    intro hall
    obtain ⟨a, b, hc, hla, hlb⟩ := hall f (by simp)
    obtain ⟨fa, fb, hw, hwa, hwb⟩ := ih (fun g hg => hall g (by simp [hg]))
    refine ⟨a ++ fa, b ++ fb, ?_, ?_, ?_⟩
    · simp [workerFlat, hc, hw]
    · simp [hla, hwa, Nat.succ_mul, Nat.add_comm]
    · simp [hlb, hwb, Nat.succ_mul, Nat.add_comm]

theorem workerFlat_append (s : State) :
    ∀ (l1 l2 : List (List ℚ)) (a1 b1 a2 b2 : List ℚ),
      workerFlat s l1 = some (a1, b1) → workerFlat s l2 = some (a2, b2) →
      workerFlat s (l1 ++ l2) = some (a1 ++ a2, b1 ++ b2) := by
  intro l1
  induction l1 with
  | nil =>
    intro l2 a1 b1 a2 b2 h1 h2
    simp only [workerFlat, Option.some.injEq, Prod.mk.injEq] at h1
    simp [← h1.1, ← h1.2, h2]
  | cons f t ih =>
    intro l2 a1 b1 a2 b2 h1 h2
    simp only [workerFlat] at h1 ⊢
    cases hc : calcFlat s f with
    | none => rw [hc] at h1; simp at h1
    | some p =>
      rw [hc] at h1
      obtain ⟨pa, pb⟩ := p
      cases hw : workerFlat s t with
      | none => rw [hw] at h1; simp at h1
      | some q =>
        rw [hw] at h1
        obtain ⟨qa, qb⟩ := q
        simp only [Option.some.injEq, Prod.mk.injEq] at h1
        simp only [List.append_eq]
        rw [ih l2 qa qb a2 b2 hw h2]
        simp [← h1.1, ← h1.2, List.append_assoc]

theorem takeDropChunks_flatten {α : Type} :
    ∀ (szs : List Nat) (l : List α),
      (takeDropChunks l szs).flatten = l.take szs.sum := by
  intro szs
  induction szs with
  | nil => intro l; simp [takeDropChunks]
  | cons sz t ih =>
    intro l
    simp [takeDropChunks, ih, List.sum_cons, List.take_add]

theorem sum_range_ite (q : Nat) :
    ∀ (k r : Nat), r ≤ k →
      ((List.range k).map (fun i => if i < r then q + 1 else q)).sum
        = k * q + r := by
  intro k
  induction k with
  | zero =>
    intro r hr
    have : r = 0 := Nat.le_zero.mp hr
    subst this
    simp
  | succ k ih =>
    intro r hr
    rw [List.range_succ, List.map_append, List.sum_append]
    simp only [List.map_cons, List.map_nil, List.sum_cons, List.sum_nil]
    by_cases h : r ≤ k
    · rw [ih r h, if_neg (by omega), Nat.succ_mul]
      omega
    · have hr1 : r = k + 1 := by omega
      subst hr1
      have hc : ∀ i ∈ List.range k,
          (if i < k + 1 then q + 1 else q) = q + 1 := by
        intro i hi
        rw [if_pos (by have := List.mem_range.mp hi; omega)]
      have hs : ((List.range k).map (fun i =>
          if i < k + 1 then q + 1 else q)).sum = k * (q + 1) := by
        rw [List.map_congr_left hc]
        simp [List.map_const]
      rw [hs, if_pos (by omega)]
      ring

theorem splitSizes_sum (n k : Nat) (hk : 1 ≤ k) :
    (splitSizes n k).sum = n := by
  unfold splitSizes
  rw [sum_range_ite (n / k) k (n % k) (Nat.le_of_lt (Nat.mod_lt n hk))]
  exact Nat.div_add_mod n k

/-- Numpy `np.array_split` partitions the list: the blocks concatenate back to
the input, in order. -/
theorem arraySplit_flatten {α : Type} (l : List α) (k : Nat) (hk : 1 ≤ k) :
    (arraySplit l k).flatten = l := by
  unfold arraySplit
  rw [takeDropChunks_flatten, splitSizes_sum _ _ hk, List.take_length]

theorem writeRange_eq (buf vals : List ℚ) (lo hi : Nat)
    (h1 : lo ≤ hi) (h2 : hi ≤ buf.length) (h3 : vals.length = hi - lo) :
    writeRange buf lo hi vals =
      some (buf.take lo ++ vals ++ buf.drop hi) := by
  unfold writeRange
  rw [if_pos ⟨h1, h2, h3⟩]

theorem writeRange_length (buf vals out : List ℚ) (lo hi : Nat)
    (h : writeRange buf lo hi vals = some out) :
    out.length = buf.length := by
  unfold writeRange at h
  split at h
  · rename_i hc
    obtain ⟨h1, h2, h3⟩ := hc
    simp only [Option.some.injEq] at h
    subst h
    simp only [List.length_append, List.length_take, List.length_drop, h3]
    omega
  · simp at h

theorem drop_append_exact {α : Type} (X Z : List α) (n : Nat) :
    (X ++ Z).drop (X.length + n) = Z.drop n := by
  simp [List.drop_append]

/-- The worker fold of `multi_run`: given well-behaved frames and large
enough buffers, the workers starting at frame `offset` replace the middle
section of each shared buffer with exactly the sequential concatenation
of their blocks' flattened results. -/
theorem multiRunGo_spec (s : State) :
    ∀ (blocks : List (List (List ℚ))) (offset : Nat) (ba bb : List ℚ),
      (∀ f ∈ blocks.flatten, frameOk s f) →
      (offset + (blocks.map List.length).sum) *
          s.num_axis_floats_per_frame ≤ ba.length →
      (offset + (blocks.map List.length).sum) *
          s.num_angle_floats_per_frame ≤ bb.length →
      ∃ fa fb, workerFlat s blocks.flatten = some (fa, fb) ∧
        multiRunGo s blocks offset (ba, bb) = some
          (ba.take (offset * s.num_axis_floats_per_frame) ++ fa ++
             ba.drop ((offset + (blocks.map List.length).sum) *
               s.num_axis_floats_per_frame),
           bb.take (offset * s.num_angle_floats_per_frame) ++ fb ++
             bb.drop ((offset + (blocks.map List.length).sum) *
               s.num_angle_floats_per_frame)) := by
  intro blocks
  induction blocks with
  | nil =>
    intro offset ba bb hall hba hbb
    refine ⟨[], [], rfl, ?_⟩
    simp [multiRunGo, List.take_append_drop]
  | cons block blocks ih =>
    intro offset ba bb hall hba hbb
    obtain ⟨a1, b1, hw1, hl1a, hl1b⟩ := workerFlat_ok s block
      (fun f hf => hall f (by
        simp only [List.flatten_cons, List.mem_append]
        exact Or.inl hf))
    have hba' : (offset + (block.length + (blocks.map List.length).sum)) *
        s.num_axis_floats_per_frame ≤ ba.length := by
      simpa using hba
    have hbb' : (offset + (block.length + (blocks.map List.length).sum)) *
        s.num_angle_floats_per_frame ≤ bb.length := by
      simpa using hbb
    have h1a : offset * s.num_axis_floats_per_frame ≤
        (offset + block.length) * s.num_axis_floats_per_frame :=
      Nat.mul_le_mul_right _ (by omega)
    have h1b : offset * s.num_angle_floats_per_frame ≤
        (offset + block.length) * s.num_angle_floats_per_frame :=
      Nat.mul_le_mul_right _ (by omega)
    have h2a : (offset + block.length) * s.num_axis_floats_per_frame ≤
        ba.length :=
      le_trans (Nat.mul_le_mul_right _ (by omega)) hba'
    have h2b : (offset + block.length) * s.num_angle_floats_per_frame ≤
        bb.length :=
      le_trans (Nat.mul_le_mul_right _ (by omega)) hbb'
    have h3a : a1.length = (offset + block.length) *
        s.num_axis_floats_per_frame -
        offset * s.num_axis_floats_per_frame := by
      rw [hl1a, Nat.add_mul]
      omega
    have h3b : b1.length = (offset + block.length) *
        s.num_angle_floats_per_frame -
        offset * s.num_angle_floats_per_frame := by
      rw [hl1b, Nat.add_mul]
      omega
    have hwr1 : writeRange ba (offset * s.num_axis_floats_per_frame)
        ((offset + block.length) * s.num_axis_floats_per_frame) a1 =
        some (ba.take (offset * s.num_axis_floats_per_frame) ++ a1 ++
          ba.drop ((offset + block.length) *
            s.num_axis_floats_per_frame)) :=
      writeRange_eq _ _ _ _ h1a h2a h3a
    have hwr2 : writeRange bb (offset * s.num_angle_floats_per_frame)
        ((offset + block.length) * s.num_angle_floats_per_frame) b1 =
        some (bb.take (offset * s.num_angle_floats_per_frame) ++ b1 ++
          bb.drop ((offset + block.length) *
            s.num_angle_floats_per_frame)) :=
      writeRange_eq _ _ _ _ h1b h2b h3b
    have hrun : run s block offset (offset + block.length)
        s.num_axis_floats_per_frame s.num_angle_floats_per_frame
        (some (ba, bb)) = some (.sharedRes
          (ba.take (offset * s.num_axis_floats_per_frame) ++ a1 ++
            ba.drop ((offset + block.length) *
              s.num_axis_floats_per_frame))
          (bb.take (offset * s.num_angle_floats_per_frame) ++ b1 ++
            bb.drop ((offset + block.length) *
              s.num_angle_floats_per_frame))) := by
      simp [run, hw1, hwr1, hwr2]
    have hXa : (ba.take (offset * s.num_axis_floats_per_frame) ++
        a1).length = (offset + block.length) *
        s.num_axis_floats_per_frame := by
      rw [List.length_append, List.length_take,
        min_eq_left (le_trans h1a h2a), hl1a, Nat.add_mul]
    have hXb : (bb.take (offset * s.num_angle_floats_per_frame) ++
        b1).length = (offset + block.length) *
        s.num_angle_floats_per_frame := by
      rw [List.length_append, List.length_take,
        min_eq_left (le_trans h1b h2b), hl1b, Nat.add_mul]
    obtain ⟨fa2, fb2, hw2, hmg2⟩ := ih (offset + block.length)
      (ba.take (offset * s.num_axis_floats_per_frame) ++ a1 ++
        ba.drop ((offset + block.length) * s.num_axis_floats_per_frame))
      (bb.take (offset * s.num_angle_floats_per_frame) ++ b1 ++
        bb.drop ((offset + block.length) * s.num_angle_floats_per_frame))
      (fun f hf => hall f (by
        simp only [List.flatten_cons, List.mem_append]
        exact Or.inr hf))
      (by
        rw [writeRange_length _ _ _ _ _ hwr1, Nat.add_assoc]
        exact hba')
      (by
        rw [writeRange_length _ _ _ _ _ hwr2, Nat.add_assoc]
        exact hbb')
    have hTakeA : (ba.take (offset * s.num_axis_floats_per_frame) ++ a1 ++
        ba.drop ((offset + block.length) *
          s.num_axis_floats_per_frame)).take
        ((offset + block.length) * s.num_axis_floats_per_frame) =
        ba.take (offset * s.num_axis_floats_per_frame) ++ a1 := by
      rw [← hXa]
      exact List.take_left _ _
    have hTakeB : (bb.take (offset * s.num_angle_floats_per_frame) ++ b1 ++
        bb.drop ((offset + block.length) *
          s.num_angle_floats_per_frame)).take
        ((offset + block.length) * s.num_angle_floats_per_frame) =
        bb.take (offset * s.num_angle_floats_per_frame) ++ b1 := by
      rw [← hXb]
      exact List.take_left _ _
    have hDropA : (ba.take (offset * s.num_axis_floats_per_frame) ++ a1 ++
        ba.drop ((offset + block.length) *
          s.num_axis_floats_per_frame)).drop
        ((offset + block.length + (blocks.map List.length).sum) *
          s.num_axis_floats_per_frame) =
        ba.drop ((offset + (block.length + (blocks.map List.length).sum)) *
          s.num_axis_floats_per_frame) := by
      have h5 : (offset + block.length + (blocks.map List.length).sum) *
          s.num_axis_floats_per_frame =
          (ba.take (offset * s.num_axis_floats_per_frame) ++ a1).length +
          (blocks.map List.length).sum * s.num_axis_floats_per_frame := by
        rw [hXa, Nat.add_mul]
      rw [h5, drop_append_exact, List.drop_drop]
      congr 1
      ring
    have hDropB : (bb.take (offset * s.num_angle_floats_per_frame) ++ b1 ++
        bb.drop ((offset + block.length) *
          s.num_angle_floats_per_frame)).drop
        ((offset + block.length + (blocks.map List.length).sum) *
          s.num_angle_floats_per_frame) =
        bb.drop ((offset + (block.length + (blocks.map List.length).sum)) *
          s.num_angle_floats_per_frame) := by
      have h5 : (offset + block.length + (blocks.map List.length).sum) *
          s.num_angle_floats_per_frame =
          (bb.take (offset * s.num_angle_floats_per_frame) ++ b1).length +
          (blocks.map List.length).sum * s.num_angle_floats_per_frame := by
        rw [hXb, Nat.add_mul]
      rw [h5, drop_append_exact, List.drop_drop]
      congr 1
      ring
    refine ⟨a1 ++ fa2, b1 ++ fb2, ?_, ?_⟩
    · have := workerFlat_append s block blocks.flatten a1 b1 fa2 fb2 hw1 hw2
      simpa [List.flatten_cons] using this
    · have hstep : multiRunGo s (block :: blocks) offset (ba, bb) =
          multiRunGo s blocks (offset + block.length)
            (ba.take (offset * s.num_axis_floats_per_frame) ++ a1 ++
              ba.drop ((offset + block.length) *
                s.num_axis_floats_per_frame),
             bb.take (offset * s.num_angle_floats_per_frame) ++ b1 ++
              bb.drop ((offset + block.length) *
                s.num_angle_floats_per_frame)) := by
        simp [multiRunGo, hrun]
      rw [hstep, hmg2, hTakeA, hTakeB, hDropA, hDropB]
      simp [List.append_assoc]

/-- C2: for a model whose pipeline handles every trial frame cleanly
(each frame's flattened outputs fill exactly one frame's float blocks),
whose shape metadata is consistent, and whose result-name registries are
well formed for structuring (distinct names, one name per result entity
— otherwise `np.dtype`/tuple conversion raise and both runs fail alike),
the sequential whole-trial run and `multi_run` with any worker count
produce the same structured axis and angle results, and that result is
the structuring of the per-frame outputs concatenated in input frame
order — each worker owns the disjoint contiguous buffer range
`[offset * size, end * size)` of its pre-assigned frame block, so worker
count never changes output order or values. -/
theorem multi_run_matches_run_all (s : State) (cores : Nat)
    (hc : 1 ≤ cores)
    (hall : ∀ f ∈ s.marker_data, frameOk s f)
    (hnf : s.num_frames = s.marker_data.length)
    (hS : s.num_axis_floats_per_frame = s.num_axes * 16)
    (hT : s.num_angle_floats_per_frame = s.num_angles * 3)
    (hshA : s.axis_results_shape = (s.num_frames, s.num_axes, 4, 4))
    (hshB : s.angle_results_shape = (s.num_frames, s.num_angles, 3))
    (hkA : (chainKeys s.axis_result_mapping).Nodup)
    (hkB : (chainKeys s.angle_result_mapping).Nodup)
    (hcntA : s.num_axes = (chainKeys s.axis_result_mapping).length)
    (hcntB : s.num_angles = (chainKeys s.angle_result_mapping).length) :
    ∃ R, run_all s = some R ∧ multi_run s cores = some R ∧
      ∃ fa fb, workerFlat s s.marker_data = some (fa, fb) ∧
        R = ((structure_trial_axes s fa).getD ([], []),
             (structure_trial_angles s fb).getD ([], [])) := by
  obtain ⟨fa, fb, hw, hla, hlb⟩ := workerFlat_ok s s.marker_data hall
  have hfa_len : fa.length = s.num_frames * (s.num_axes * (4 * 4)) := by
    rw [hla, hS, hnf]
  have hfb_len : fb.length = s.num_frames * (s.num_angles * 3) := by
    rw [hlb, hT, hnf]
  have hstA : structure_trial_axes s fa =
      some (chainKeys s.axis_result_mapping,
        (chunkList (s.num_axes * (4 * 4)) fa).map (chunkList (4 * 4))) := by
    unfold structure_trial_axes
    rw [hshA]
    show (if (chainKeys s.axis_result_mapping).Nodup ∧
        fa.length = s.num_frames * (s.num_axes * (4 * 4)) ∧
        (s.num_frames = 0 ∨
          s.num_axes = (chainKeys s.axis_result_mapping).length) then _
      else none) = _
    rw [if_pos ⟨hkA, hfa_len, Or.inr hcntA⟩]
  have hstB : structure_trial_angles s fb =
      some (chainKeys s.angle_result_mapping,
        (chunkList (s.num_angles * 3) fb).map (chunkList 3)) := by
    unfold structure_trial_angles
    rw [hshB]
    show (if (chainKeys s.angle_result_mapping).Nodup ∧
        fb.length = s.num_frames * (s.num_angles * 3) ∧
        (s.num_frames = 0 ∨
          s.num_angles = (chainKeys s.angle_result_mapping).length) then _
      else none) = _
    rw [if_pos ⟨hkB, hfb_len, Or.inr hcntB⟩]
  refine ⟨((structure_trial_axes s fa).getD ([], []),
    (structure_trial_angles s fb).getD ([], [])), ?_, ?_, fa, fb, hw, rfl⟩
  · simp [run_all, run, hw, hstA, hstB]
  · have hc0 : ¬cores = 0 := by omega
    have hflat : (arraySplit s.marker_data cores).flatten = s.marker_data :=
      arraySplit_flatten _ _ hc
    have hsum : ((arraySplit s.marker_data cores).map List.length).sum =
        s.marker_data.length := by
      rw [← List.length_flatten, hflat]
    have hbalen : (0 + ((arraySplit s.marker_data cores).map
          List.length).sum) * s.num_axis_floats_per_frame =
        (List.replicate (s.num_frames * (s.num_axes * 16)) (0 : ℚ)).length := by
      rw [hsum, List.length_replicate, hS, hnf]
      ring
    have hbblen : (0 + ((arraySplit s.marker_data cores).map
          List.length).sum) * s.num_angle_floats_per_frame =
        (List.replicate (s.num_frames * (s.num_angles * 3)) (0 : ℚ)).length := by
      rw [hsum, List.length_replicate, hT, hnf]
      ring
    obtain ⟨fa', fb', hw', hmg⟩ := multiRunGo_spec s
      (arraySplit s.marker_data cores) 0
      (List.replicate (s.num_frames * (s.num_axes * 16)) 0)
      (List.replicate (s.num_frames * (s.num_angles * 3)) 0)
      (fun f hf => hall f (hflat ▸ hf))
      (le_of_eq hbalen) (le_of_eq hbblen)
    rw [hflat] at hw'
    rw [hw] at hw'
    simp only [Option.some.injEq, Prod.mk.injEq] at hw'
    obtain ⟨hfa', hfb'⟩ := hw'
    subst hfa'
    subst hfb'
    have hEraseA : (List.replicate (s.num_frames * (s.num_axes * 16))
          (0 : ℚ)).take (0 * s.num_axis_floats_per_frame) ++ fa ++
        (List.replicate (s.num_frames * (s.num_axes * 16)) (0 : ℚ)).drop
          ((0 + ((arraySplit s.marker_data cores).map List.length).sum) *
            s.num_axis_floats_per_frame) = fa := by
      rw [Nat.zero_mul, List.take_zero, hbalen, List.drop_length]
      simp
    have hEraseB : (List.replicate (s.num_frames * (s.num_angles * 3))
          (0 : ℚ)).take (0 * s.num_angle_floats_per_frame) ++ fb ++
        (List.replicate (s.num_frames * (s.num_angles * 3)) (0 : ℚ)).drop
          ((0 + ((arraySplit s.marker_data cores).map List.length).sum) *
            s.num_angle_floats_per_frame) = fb := by
      rw [Nat.zero_mul, List.take_zero, hbblen, List.drop_length]
      simp
    rw [hEraseA, hEraseB] at hmg
    simp [multi_run, hc0, hmg, hstA, hstB]

theorem multi_run_matches_run_all_witness :
    ∃ R, run_all sTwoFrames = some R ∧ multi_run sTwoFrames 2 = some R ∧
      ∃ fa fb, workerFlat sTwoFrames sTwoFrames.marker_data =
          some (fa, fb) ∧
        R = ((structure_trial_axes sTwoFrames fa).getD ([], []),
             (structure_trial_angles sTwoFrames fb).getD ([], [])) := by
  refine multi_run_matches_run_all sTwoFrames 2 (by omega) ?_ rfl rfl rfl
    rfl rfl (by decide) (by decide) rfl rfl
  intro f hf
  have hmd : sTwoFrames.marker_data = [[1], [2]] := rfl
  rw [hmd] at hf
  simp only [List.mem_cons, List.not_mem_nil, or_false] at hf
  rcases hf with rfl | rfl
  · exact ⟨List.replicate 16 1, List.replicate 3 1, rfl, rfl, rfl⟩
  · exact ⟨List.replicate 16 2, List.replicate 3 2, rfl, rfl, rfl⟩

end PyCGM
